import Mathlib

/-!
Verification development for the tcpdog ingress/flow orchestration subsystem.

The Go sources embedded here are `ingress/kafka/kafka.go` (consumer group,
serialization registry, worker pool, supervising loop) and the `config`
package (configuration resolution, TLS credential provisioning).  The
`config` package implementation is not available, only its behaviour as
documented; those definitions are modelled from the spec and marked as such.
-/

set_option autoImplicit false

namespace Tcpdog

/-! ## Common infrastructure -/

/-- Error values (Go `error`), modelled as their message string. -/
abbrev Err := String

/-- Raw message payload bytes (Go `[]byte`). -/
abbrev Bytes := List Nat

/-- Association-list lookup by string key, mirroring Go map indexing and
YAML mapping lookup. -/
def lookupKV {α : Type} (k : String) : List (String × α) → Option α
  | [] => none
  | (k', v) :: rest => if k' = k then some v else lookupKV k rest

/-- ASCII-lowered code of a character, for case-insensitive name matching. -/
def lowerCode (c : Char) : Nat :=
  if 65 ≤ c.toNat ∧ c.toNat ≤ 90 then c.toNat + 32 else c.toNat

/-- ASCII-lowered view of a name. -/
def lowerName (s : String) : List Nat := s.data.map lowerCode

/-- Case-insensitive association-list lookup, mirroring the name matching
used when a generic mapping is decoded into a typed shape. -/
def lookupCI {α : Type} (k : String) : List (String × α) → Option α
  | [] => none
  | (k', v) :: rest => if lowerName k' = lowerName k then some v else lookupCI k rest

/-- Truth value of an `Except` computation having succeeded. -/
def isOk {α : Type} : Except Err α → Bool
  | .ok _ => true
  | .error _ => false

/-! ## Dynamic Go values -/

/-- A dynamic Go value (`interface` value) as carried in a generic
configuration mapping: strings, integers, lists, nested mappings, and a
channel value (the canonical non-serializable container). -/
inductive GoVal where
  | str (s : String)
  | int (n : Int)
  | list (xs : List GoVal)
  | map (kvs : List (String × GoVal))
  | chan

/-- Whether a dynamic value is a mapping-like container. -/
def GoVal.isMap : GoVal → Bool
  | .map _ => true
  | _ => false

/-! ## ConfigResolver: generic-to-typed transform

Modelled from the spec: the `config` package implementation is not under
`src/`; only its tests are.  `Transform(source, target)` copies values from
`source` into `target`'s matching fields by name and fails with a
TransformError when `source` is not a mapping-like container, leaving
`target` unmodified on failure. -/

/-- A typed shape: named fields with their current values (the reflection
view of a Go struct that `Transform` populates). -/
structure TypedShape where
  fields : List (String × GoVal)

/-- Modelled from the spec: `Transform` (config package, not under `src/`)
copies values from a generic mapping into the target's matching fields by
name; a source that is not a mapping-like container is rejected. -/
def Transform (source : GoVal) (target : TypedShape) : Except Err TypedShape :=
  match source with
  | .map kvs =>
      .ok ⟨target.fields.map fun f =>
        match lookupCI f.1 kvs with
        | some w => (f.1, w)
        | none => f⟩
  | _ => .error "unsupported source type"

/-- Go passes the target by pointer; on failure the pointee keeps its old
value.  This wrapper makes that in-place contract explicit. -/
def transformInPlace (source : GoVal) (target : TypedShape) : TypedShape × Option Err :=
  match Transform source target with
  | .ok t => (t, none)
  | .error e => (target, some e)

/-! ## ConfigResolver: defaults and the client configuration -/

/-- A diagnostic sink (zap logger), identified abstractly. -/
structure Logger where
  name : String
deriving DecidableEq

/-- Modelled from the spec: the default diagnostic sink. -/
def GetDefaultLogger : Logger := ⟨"default"⟩

/-- A tracepoint definition of the client/agent configuration. -/
structure Tracepoint where
  name : String := ""
  fields : String := ""
  tcpState : String := ""
  sample : Nat := 0
  inet : List Nat := []
  egress : String := ""
  workers : Nat := 0
deriving DecidableEq

/-- The client/agent configuration: tracepoint list plus attached sink. -/
structure Config where
  tracepoints : List Tracepoint := []
  logger : Option Logger := none
deriving DecidableEq

/-- Per-tracepoint default: the worker count defaults to 1 when it is zero. -/
def setDefaultTracepoint (tp : Tracepoint) : Tracepoint :=
  if tp.workers = 0 then { tp with workers := 1 } else tp

/-- Modelled from the spec: `setDefault` (config package, not under `src/`)
fills unset numeric fields (worker count defaults to 1 if zero) and installs
the default diagnostic sink if none is set. -/
def setDefault (c : Config) : Config :=
  { c with
    tracepoints := c.tracepoints.map setDefaultTracepoint,
    logger :=
      match c.logger with
      | some l => some l
      | none => some GetDefaultLogger }

/-! ## ConfigResolver: server configuration resolution -/

/-- An endpoint specification: a type tag plus opaque settings passed to the
corresponding adapter. -/
structure EndpointSpec where
  type : String := ""
  config : List (String × GoVal) := []

/-- A flow binding: one ingress, one ingestion, one serialization format. -/
structure FlowBinding where
  ingress : String
  ingestion : String
  serialization : String
deriving DecidableEq

/-- The server configuration: named ingress sources, named ingestion sinks,
one geo endpoint, the flow list, and the attached sink. -/
structure ServerConfig where
  ingress : List (String × EndpointSpec) := []
  ingestion : List (String × EndpointSpec) := []
  geo : EndpointSpec := {}
  flow : List FlowBinding := []
  logger : Option Logger := none

/-- A parsed server configuration document (the output shape of the YAML
parser; parsing mechanics are out of scope). -/
structure ServerDoc where
  ingress : List (String × EndpointSpec) := []
  ingestion : List (String × EndpointSpec) := []
  geo : EndpointSpec := {}
  flow : List FlowBinding := []

/-- The file system as seen by the loader: a path maps to the parsed
document, to `none` when the file exists but is malformed, or is absent. -/
abbrev FileSys := List (String × Option ServerDoc)

/-- Modelled from the spec: `loadServer` (config package, not under `src/`)
parses a configuration document into the typed ServerConfiguration and fails
when the file is missing or malformed. -/
def loadServer (fs : FileSys) (path : String) : Except Err ServerConfig :=
  match lookupKV path fs with
  | none => .error "no such file or directory"
  | some none => .error "cannot unmarshal configuration"
  | some (some d) =>
      .ok { ingress := d.ingress, ingestion := d.ingestion, geo := d.geo, flow := d.flow }

/-- Scan of the argument list for the configuration-file flag and its value. -/
def configFlagValue : List String → Option String
  | [] => none
  | a :: rest =>
    match rest with
    | [] => none
    | b :: _ => if a = "-config" then some b else configFlagValue rest

/-- Modelled from the spec: `GetServer(args, version)` (config package, not
under `src/`) resolves the ServerConfiguration; the configuration-file flag
is mandatory — server mode has no ad-hoc fallback. -/
def GetServer (fs : FileSys) (args : List String) (_vers : String) : Except Err ServerConfig :=
  match configFlagValue args with
  | none => .error "server mode requires a configuration file"
  | some path => loadServer fs path

/-! ## CredentialProvider

Modelled from the spec: the TLS loader (config package, not under `src/`)
builds certificate, key and trust-anchor paths into channel-security
settings; `GetCreds` wraps those settings into transport credentials with
the same failure modes. -/

/-- Content of a PEM file on disk: a certificate, a private key (tagged with
the key pair it belongs to), or unparseable bytes. -/
inductive PemFile where
  | cert (keyId : Nat)
  | privKey (keyId : Nat)
  | garbage

/-- The file system as seen by the TLS loader. -/
abbrev CertFS := List (String × PemFile)

/-- TLS material: enabled flag, certificate path, key path, trust-anchor path. -/
structure TLSConfig where
  enable : Bool := false
  certFile : String := ""
  keyFile : String := ""
  caFile : String := ""

/-- A loaded certificate/private-key pair. -/
structure KeyPair where
  keyId : Nat
deriving DecidableEq

/-- Modelled external loader: a certificate/key pair loads only when both
paths are non-empty, both files are readable PEM of the right kind, and the
key matches the certificate.  An empty path never names a readable file. -/
def loadX509KeyPair (fs : CertFS) (certPath keyPath : String) : Except Err KeyPair :=
  if certPath = "" ∨ keyPath = "" then .error "open : no such file or directory"
  else
    match lookupKV certPath fs, lookupKV keyPath fs with
    | some (.cert i), some (.privKey j) =>
        if i = j then .ok ⟨i⟩ else .error "private key does not match public key"
    | _, _ => .error "failed to load key pair"

/-- Modelled external loader: reading and parsing the trust-anchor bundle. -/
def loadTrustAnchor (fs : CertFS) (caPath : String) : Except Err Nat :=
  match lookupKV caPath fs with
  | some (.cert i) => .ok i
  | some _ => .error "failed to parse trust anchor"
  | none => .error "open : no such file or directory"

/-- Channel-security settings: the loaded pair and trust anchors. -/
structure TLSSettings where
  pair : KeyPair
  trustAnchor : Nat
deriving DecidableEq

/-- Modelled from the spec: `GetTLS` (BuildTLSSettings) loads the PEM
certificate and private key (required as a pair) and the trust-anchor
material; it fails when the trust-anchor path is unreadable or when a
certificate is given without its matching key (or vice versa). -/
def GetTLS (fs : CertFS) (cfg : TLSConfig) : Except Err TLSSettings :=
  match loadX509KeyPair fs cfg.certFile cfg.keyFile with
  | .error e => .error e
  | .ok pair =>
    match loadTrustAnchor fs cfg.caFile with
    | .error e => .error e
    | .ok ca => .ok ⟨pair, ca⟩

/-- Transport credentials wrapping the TLS settings. -/
structure Creds where
  settings : TLSSettings
deriving DecidableEq

/-- Modelled from the spec: `GetCreds` (BuildTransportCredentials) wraps the
TLS settings into transport credentials; same failure modes as `GetTLS`,
surfaced identically. -/
def GetCreds (fs : CertFS) (cfg : TLSConfig) : Except Err Creds :=
  match GetTLS fs cfg with
  | .error e => .error e
  | .ok s => .ok ⟨s⟩

/-! ## SerializationRegistry (`getUnmarshal` in ingress/kafka/kafka.go) -/

/-- The three registered decode functions.  The decoders themselves
(`json.Unmarshal` into a dynamic mapping, `proto.Unmarshal` into the full
and compact binary schemas) are external collaborators; the registry is
parameterised over them, producing records of type `R`. -/
structure Codecs (R : Type) where
  jsonDec : Bytes → Except Err R
  spbDec : Bytes → Except Err R
  pbDec : Bytes → Except Err R

/-- `getUnmarshal` from kafka.go: the `switch` over the serialization name.
For any name other than "json", "spb" and "pb" it returns no decoder
(Go `nil`). -/
def getUnmarshal {R : Type} (c : Codecs R) (ser : String) : Option (Bytes → Except Err R) :=
  if ser = "json" then some c.jsonDec
  else if ser = "spb" then some c.spbDec
  else if ser = "pb" then some c.pbDec
  else none

/-! ## Consumer session (`handler.ConsumeClaim` in kafka.go) -/

/-- Observable actions of the session loop: handing a payload to the decode
queue (`h.ch <- message.Value`) and marking the message as processed
(`session.MarkMessage(message, "")`). -/
inductive SessionEvent where
  | handoff (b : Bytes)
  | mark (b : Bytes)
deriving DecidableEq

/-- `ConsumeClaim` from kafka.go: for every message of the claim, in order,
the session sends the raw bytes to the decode queue and then immediately
marks the message — with no dependence on any decoder. -/
def ConsumeClaim (msgs : List Bytes) : List SessionEvent :=
  match msgs with
  | [] => []
  | m :: rest => SessionEvent.handoff m :: SessionEvent.mark m :: ConsumeClaim rest

/-- The payloads handed to the decode queue, in order. -/
def handoffsOf (evts : List SessionEvent) : List Bytes :=
  evts.filterMap fun e =>
    match e with
    | .handoff b => some b
    | .mark _ => none

/-- The messages marked as processed, in order. -/
def marksOf (evts : List SessionEvent) : List Bytes :=
  evts.filterMap fun e =>
    match e with
    | .handoff _ => none
    | .mark b => some b

/-! ## Worker pool (`consumerGroup.worker` in kafka.go) -/

/-- `worker` from kafka.go, run over the payloads it receives from the
decode queue.  The decoder is looked up once (`getUnmarshal` at worker
start), so the argument is the `Option` the registry returned: invoking a
`nil` decoder on the first received payload is a runtime panic, modelled as
`none`.  With a real decoder, a failed decode is logged and the message
dropped (`continue`); a successful decode is forwarded to the output
queue. -/
def workerLoop {R : Type} (u : Option (Bytes → Except Err R)) :
    List Bytes → Option (List (Bytes × Err) × List R)
  | [] => some ([], [])
  | b :: rest =>
    match u with
    | none => none
    | some f =>
      match f b with
      | .error e => (workerLoop u rest).map fun p => ((b, e) :: p.1, p.2)
      | .ok r => (workerLoop u rest).map fun p => (p.1, r :: p.2)

/-- The log entry a failed decode produces, `none` for a successful one. -/
def decodeLogEntry {R : Type} (f : Bytes → Except Err R) (b : Bytes) : Option (Bytes × Err) :=
  match f b with
  | .error e => some (b, e)
  | .ok _ => none

/-! ## Supervising loop (the consumer-group goroutine in `Start`) -/

/-- Loop control: fall through to the next iteration, or leave the loop. -/
inductive LoopControl where
  | next
  | exit
deriving DecidableEq

/-- One iteration body of the supervising loop in `Start`: the return value
of `cg.group.Consume` is logged when it is an error, and both branches fall
through to the next iteration — the body contains no `break` or `return`. -/
def superviseBody (outcome : Option Err) : List Err × LoopControl :=
  match outcome with
  | some e => ([e], .next)
  | none => ([], .next)

/-- State of the supervising loop: how many consumption calls were made and
which errors were logged. -/
structure SuperviseState where
  calls : Nat
  logs : List Err
deriving DecidableEq

/-- The supervising loop after a given number of iterations; `consume k`
is the outcome of the `k`-th `cg.group.Consume` call (`none` = returned
without error). -/
def superviseRun (consume : Nat → Option Err) : Nat → SuperviseState
  | 0 => ⟨0, []⟩
  | n + 1 =>
    let s := superviseRun consume n
    let step := superviseBody (consume s.calls)
    match step.2 with
    | .next => ⟨s.calls + 1, s.logs ++ step.1⟩
    | .exit => s

/-! ## Consumer group construction (`newConsumerGroup` in kafka.go) -/

/-- The typed kafka configuration (`kafka.Config`, resolved from the
endpoint's opaque settings). -/
structure KafkaConfig where
  brokers : List String := []
  topic : String := ""
  group : String := ""
  workers : Nat := 0
deriving DecidableEq

/-- String extraction from an optional dynamic value (zero value `""`). -/
def goStr : Option GoVal → String
  | some (.str s) => s
  | _ => ""

/-- Numeric extraction from an optional dynamic value (zero value `0`). -/
def goNat : Option GoVal → Nat
  | some (.int n) => n.toNat
  | _ => 0

/-- String-list extraction from an optional dynamic value. -/
def goStrList : Option GoVal → List String
  | some (.list xs) =>
      xs.filterMap fun v =>
        match v with
        | .str s => some s
        | _ => none
  | _ => []

/-- Modelled from the spec: `kafkaConfig` (ingress/kafka config helper, not
under `src/`) transforms the named EndpointSpec's opaque settings into the
typed kafka configuration — broker addresses, topic, group identity and
worker count. -/
def kafkaConfig (settings : List (String × GoVal)) : KafkaConfig :=
  { brokers := goStrList (lookupKV "brokers" settings),
    topic := goStr (lookupKV "topic" settings),
    group := goStr (lookupKV "group" settings),
    workers := goNat (lookupKV "workers" settings) }

/-- A live consumer-group session handle: the brokers it is connected to and
the group identity it joined. -/
structure SessionHandle where
  brokers : List String
  groupID : String
deriving DecidableEq

/-- Modelled external collaborator (`sarama.NewConsumerGroup`): opening a
consumer group fails when no broker address is supplied. -/
def saramaNewConsumerGroup (brokers : List String) (groupID : String) :
    Except Err SessionHandle :=
  if brokers.isEmpty then .error "you must provide at least one broker address"
  else .ok ⟨brokers, groupID⟩

/-- Modelled from the spec: `saramaConfig` (ingress/kafka config helper, not
under `src/`) builds the session settings; its parsing mechanics are out of
scope and it is modelled as always succeeding — session-creation failure is
modelled in `saramaNewConsumerGroup`. -/
def saramaConfig (_kCfg : KafkaConfig) : Except Err Unit := .ok ()

/-- The `consumerGroup` struct from kafka.go. -/
structure ConsumerGroup where
  group : SessionHandle
  serialization : String
deriving DecidableEq

/-- `newConsumerGroup` from kafka.go: builds the sarama settings, then opens
the consumer group for the configured brokers under the string-literal group
identity "tcpdog". -/
def newConsumerGroup (kCfg : KafkaConfig) : Except Err ConsumerGroup :=
  match saramaConfig kCfg with
  | .error e => .error e
  | .ok _ =>
    match saramaNewConsumerGroup kCfg.brokers "tcpdog" with
    | .error e => .error e
    | .ok group => .ok { group := group, serialization := "" }

/-! ## `Start` (kafka.go) -/

/-- Go map indexing on the ingress map: a missing key yields the zero
value. -/
def ingressLookup (cfg : ServerConfig) (name : String) : EndpointSpec :=
  (lookupKV name cfg.ingress).getD {}

/-- What a successful `Start` leaves running: the consumer group (with the
flow's serialization name installed), the topic the supervising loop
consumes, the number of spawned workers, and the capacity of the decode
queue (`make(chan []byte, 1)`). -/
structure StartSpawn where
  cg : ConsumerGroup
  topic : String
  workers : Nat
  decodeQueueCap : Nat
deriving DecidableEq

/-- `Start` from kafka.go: resolves the named ingress endpoint's settings,
creates the consumer group and returns its error on failure — before any
goroutine is spawned; on success it installs the serialization name, spawns
the error-drain goroutine, the supervising goroutine and the workers (their
behaviour is `superviseRun` and `workerLoop`), and returns `nil` without
blocking on consumption. -/
def Start (cfg : ServerConfig) (name ser : String) : Except Err StartSpawn :=
  let kCfg := kafkaConfig (ingressLookup cfg name).config
  match newConsumerGroup kCfg with
  | .error e => .error e
  | .ok cg =>
    .ok { cg := { cg with serialization := ser },
          topic := kCfg.topic,
          workers := kCfg.workers,
          decodeQueueCap := 1 }

/-- The kinds of goroutine `Start` spawns. -/
inductive TaskKind where
  | errorDrain
  | supervisor
  | worker
deriving DecidableEq

/-- The goroutines spawned by a `Start` call: none when `Start` returned an
error (the `return err` precedes every `go` statement), otherwise the
error-drain goroutine, the supervising goroutine and one goroutine per
configured worker. -/
def startTasks : Except Err StartSpawn → List TaskKind
  | .error _ => []
  | .ok s => TaskKind.errorDrain :: TaskKind.supervisor :: List.replicate s.workers TaskKind.worker

/-- What a `Start` call forwards to the output queue for a given message
stream: nothing when `Start` failed (no task was spawned) or no worker is
configured; otherwise the worker-pool output, sequentialised as one worker
draining the decode queue (no cross-worker ordering is guaranteed). -/
def startForwarded {R : Type} (c : Codecs R) (res : Except Err StartSpawn)
    (msgs : List Bytes) : List R :=
  match res with
  | .error _ => []
  | .ok s =>
    if s.workers = 0 then []
    else
      match workerLoop (getUnmarshal c s.cg.serialization) (handoffsOf (ConsumeClaim msgs)) with
      | none => []
      | some p => p.2

/-! ## The per-flow pipeline -/

/-- A trace of one flow: the session events, the worker's decode-failure log
and what was forwarded to the output queue. -/
structure FlowTrace (R : Type) where
  session : List SessionEvent
  workerLogs : List (Bytes × Err)
  forwarded : List R

/-- One flow run: the session loop (`ConsumeClaim`) hands every raw payload
to the decode queue and marks it; a worker (`workerLoop`) drains exactly the
handed-off payloads with the decoder the registry returned for the flow's
serialization name.  `none` when the worker crashed (nil decoder invoked at
the first message). -/
def runFlow {R : Type} (c : Codecs R) (ser : String) (msgs : List Bytes) :
    Option (FlowTrace R) :=
  match workerLoop (getUnmarshal c ser) (handoffsOf (ConsumeClaim msgs)) with
  | none => none
  | some p => some { session := ConsumeClaim msgs, workerLogs := p.1, forwarded := p.2 }

/-! ## Concrete instances used by witnesses and counterexamples -/

/-- A concrete codec instance (records are `Nat`). -/
def natCodecs : Codecs Nat :=
  { jsonDec := fun b => .ok b.length,
    spbDec := fun b => .ok (b.length + 1),
    pbDec := fun b => .ok (b.length + 2) }

/-- A codec instance every one of whose decoders fails. -/
def failCodecs : Codecs Nat :=
  { jsonDec := fun _ => .error "bad payload",
    spbDec := fun _ => .error "bad payload",
    pbDec := fun _ => .error "bad payload" }

/-- A server configuration with one kafka ingress whose settings carry
brokers, topic, a group identity and a worker count. -/
def cfgKafkaTest : ServerConfig :=
  { ingress :=
      [("kafka",
        { type := "kafka",
          config :=
            [("brokers", .list [.str "127.0.0.1:9092"]),
             ("topic", .str "tcpdog"),
             ("group", .str "mygroup"),
             ("workers", .int 2)] })] }

/-- A server configuration whose kafka ingress carries no settings: no
broker address, so session creation fails. -/
def cfgNoBroker : ServerConfig :=
  { ingress := [("kafka", { type := "kafka", config := [] })] }

/-- The spawn record `Start cfgKafkaTest "kafka" "spb"` produces. -/
def startSpawnW : StartSpawn :=
  { cg := { group := { brokers := ["127.0.0.1:9092"], groupID := "tcpdog" },
            serialization := "spb" },
    topic := "tcpdog",
    workers := 2,
    decodeQueueCap := 1 }

/-- A decoder failing exactly on the payload `[0]`. -/
def decOnlyZeroBad : Bytes → Except Err Nat :=
  fun b => if b = [0] then .error "bad payload" else .ok b.length

/-- The flow trace of `runFlow failCodecs "json" [[0], [1]]`. -/
def flowTraceW : FlowTrace Nat :=
  { session :=
      [SessionEvent.handoff [0], SessionEvent.mark [0],
       SessionEvent.handoff [1], SessionEvent.mark [1]],
    workerLogs := [([0], "bad payload"), ([1], "bad payload")],
    forwarded := [] }

/-- The target shape of the transform test: fields `Foo` and `Key`. -/
def tgtTest : TypedShape :=
  ⟨[("Foo", GoVal.str ""), ("Key", GoVal.int 0)]⟩

/-- The source mapping of the transform test. -/
def kvsTest : List (String × GoVal) :=
  [("foo", GoVal.str "bar"), ("key", GoVal.int 5)]

/-- The server document of the resolution test: ingress "grpc", ingestion
"elasticsearch", geo "maxmind", one flow binding. -/
def serverDocTest : ServerDoc :=
  { ingress := [("grpc", { type := "grpc" })],
    ingestion := [("elasticsearch", { type := "elasticsearch" })],
    geo := { type := "maxmind" },
    flow := [⟨"grpc", "elasticsearch", "spb"⟩] }

/-- A file system carrying the test document. -/
def fsTest : FileSys := [("/tmp/config.yml", some serverDocTest)]

/-- A certificate file system: matching certificate, key and trust anchor. -/
def certFsTest : CertFS :=
  [("certFile", PemFile.cert 0), ("keyFile", PemFile.privKey 0), ("caFile", PemFile.cert 0)]

/-- TLS material naming the matching triple. -/
def tlsCfgOK : TLSConfig :=
  { enable := true, certFile := "certFile", keyFile := "keyFile", caFile := "caFile" }

/-- TLS material whose trust-anchor path does not exist. -/
def tlsCfgBadCA : TLSConfig :=
  { enable := true, certFile := "certFile", keyFile := "keyFile", caFile := "foo" }

/-- TLS material with a certificate path (an invalid one) and no key. -/
def tlsCfgNoKey : TLSConfig :=
  { enable := true, certFile := "foo", keyFile := "", caFile := "foo" }

/-! ## Theorems -/

/-- C6: for every mapping-shaped source and typed shape, `Transform`
populates every matching field of the target and returns no error; for a
source that is not a mapping-like container (e.g. a channel value) it
returns a TransformError and leaves the target unmodified. -/
theorem Transform_populates_or_rejects (kvs : List (String × GoVal)) (tgt : TypedShape)
    (src : GoVal) (hsrc : src.isMap = false) :
    (∃ tgt', Transform (GoVal.map kvs) tgt = .ok tgt' ∧
      tgt'.fields.length = tgt.fields.length ∧
      ∀ i f w, tgt.fields.get? i = some f → lookupCI f.1 kvs = some w →
        tgt'.fields.get? i = some (f.1, w)) ∧
    (∃ e, Transform src tgt = .error e) ∧
    (transformInPlace src tgt).1 = tgt := by
  refine ⟨⟨_, rfl, List.length_map _ _, ?_⟩, ?_, ?_⟩
  · intro i f w hf hw
    rw [List.get?_map, hf]
    simp only [Option.map_some']
    rw [hw]
  · cases src with
    | map kvs' => simp [GoVal.isMap] at hsrc
    | str s => exact ⟨_, rfl⟩
    | int n => exact ⟨_, rfl⟩
    | list xs => exact ⟨_, rfl⟩
    | chan => exact ⟨_, rfl⟩
  · cases src with
    | map kvs' => simp [GoVal.isMap] at hsrc
    | str s => rfl
    | int n => rfl
    | list xs => rfl
    | chan => rfl

/-- C6 witness: the channel source is rejected and the target of the
concrete transform test is left unmodified. -/
theorem Transform_populates_or_rejects_witness :
    (transformInPlace GoVal.chan tgtTest).1 = tgtTest :=
  (Transform_populates_or_rejects kvsTest tgtTest GoVal.chan rfl).2.2

/-- C7: `setDefault` sets every tracepoint's worker count to 1 exactly when
it is zero, installs the default diagnostic sink exactly when none is set,
and is idempotent: two applications yield the same worker-count and sink
state as one. -/
theorem setDefault_defaults_and_idempotent (c : Config) :
    (∀ i, (setDefault c).tracepoints.get? i
        = (c.tracepoints.get? i).map fun tp =>
            if tp.workers = 0 then { tp with workers := 1 } else tp) ∧
    (setDefault c).logger = some (c.logger.getD GetDefaultLogger) ∧
    setDefault (setDefault c) = setDefault c := by
  have hf : ∀ tp, setDefaultTracepoint (setDefaultTracepoint tp) = setDefaultTracepoint tp := by
    intro tp
    by_cases h : tp.workers = 0 <;> simp [setDefaultTracepoint, h]
  refine ⟨?_, ?_, ?_⟩
  · intro i
    show (c.tracepoints.map setDefaultTracepoint).get? i = _
    cases hso : c.tracepoints.get? i with
    | none => rw [List.get?_map, hso]; rfl
    | some tp => rw [List.get?_map, hso]; simp [setDefaultTracepoint]
  · cases hl : c.logger <;> simp [setDefault, hl]
  · cases hl : c.logger <;>
      simp [setDefault, hl, List.map_map, Function.comp_def, hf]

/-- C8: `GetServer` fails whenever the argument list carries no
configuration-file flag; when the flag names a valid server document, the
resolved configuration's ingress, ingestion, geo and flow fields match the
document exactly. -/
theorem GetServer_requires_flag_and_matches (fs : FileSys) (args : List String)
    (vers : String) :
    (configFlagValue args = none → isOk (GetServer fs args vers) = false) ∧
    (∀ path d, configFlagValue args = some path → lookupKV path fs = some (some d) →
      GetServer fs args vers
        = .ok { ingress := d.ingress, ingestion := d.ingestion,
                geo := d.geo, flow := d.flow }) := by
  constructor
  · intro h
    simp [GetServer, h, isOk]
  · intro path d h1 h2
    simp [GetServer, h1, loadServer, h2]

/-- C8 witness: without a file flag resolution fails; with the flag naming
the test document the resolved fields match that document exactly. -/
theorem GetServer_requires_flag_and_matches_witness :
    isOk (GetServer [] ["tcpdog"] "0.0.0") = false ∧
    GetServer fsTest ["tcpdog", "-config", "/tmp/config.yml"] "0.0.0"
      = .ok { ingress := serverDocTest.ingress, ingestion := serverDocTest.ingestion,
              geo := serverDocTest.geo, flow := serverDocTest.flow } :=
  ⟨(GetServer_requires_flag_and_matches [] ["tcpdog"] "0.0.0").1 rfl,
   (GetServer_requires_flag_and_matches fsTest ["tcpdog", "-config", "/tmp/config.yml"]
      "0.0.0").2 "/tmp/config.yml" serverDocTest rfl rfl⟩

/-- C9: the TLS settings builder fails when the trust-anchor path does not
exist and when a certificate path is given with no key supplied; it succeeds
for a matching certificate/key/trust-anchor triple; and `GetCreds` surfaces
exactly the same failure modes. -/
theorem GetTLS_GetCreds_failure_modes (fs : CertFS) (cfg : TLSConfig) :
    (lookupKV cfg.caFile fs = none →
      isOk (GetTLS fs cfg) = false ∧ isOk (GetCreds fs cfg) = false) ∧
    (cfg.keyFile = "" →
      isOk (GetTLS fs cfg) = false ∧ isOk (GetCreds fs cfg) = false) ∧
    (∀ i j, cfg.certFile ≠ "" → cfg.keyFile ≠ "" →
      lookupKV cfg.certFile fs = some (PemFile.cert i) →
      lookupKV cfg.keyFile fs = some (PemFile.privKey i) →
      lookupKV cfg.caFile fs = some (PemFile.cert j) →
      isOk (GetTLS fs cfg) = true ∧ isOk (GetCreds fs cfg) = true) ∧
    (∀ e, GetTLS fs cfg = .error e ↔ GetCreds fs cfg = .error e) := by
  refine ⟨?_, ?_, ?_, ?_⟩
  · intro h
    cases hk : loadX509KeyPair fs cfg.certFile cfg.keyFile with
    | error e => simp [GetTLS, GetCreds, hk, isOk]
    | ok p => simp [GetTLS, GetCreds, hk, loadTrustAnchor, h, isOk]
  · intro h
    simp [GetTLS, GetCreds, loadX509KeyPair, h, isOk]
  · intro i j h1 h2 h3 h4 h5
    simp [GetTLS, GetCreds, loadX509KeyPair, loadTrustAnchor, h1, h2, h3, h4, h5, isOk]
  · intro e
    cases hg : GetTLS fs cfg <;> simp [GetCreds, hg]

/-- C9 witness: on the concrete file system, the missing trust anchor and
the key-less certificate fail, and the matching triple succeeds. -/
theorem GetTLS_GetCreds_failure_modes_witness :
    (isOk (GetTLS certFsTest tlsCfgBadCA) = false ∧
      isOk (GetCreds certFsTest tlsCfgBadCA) = false) ∧
    (isOk (GetTLS certFsTest tlsCfgNoKey) = false ∧
      isOk (GetCreds certFsTest tlsCfgNoKey) = false) ∧
    (isOk (GetTLS certFsTest tlsCfgOK) = true ∧
      isOk (GetCreds certFsTest tlsCfgOK) = true) :=
  ⟨(GetTLS_GetCreds_failure_modes certFsTest tlsCfgBadCA).1 rfl,
   (GetTLS_GetCreds_failure_modes certFsTest tlsCfgNoKey).2.1 rfl,
   (GetTLS_GetCreds_failure_modes certFsTest tlsCfgOK).2.2.1 0 0
     (by decide) (by decide) rfl rfl rfl⟩

/-- The session loop hands exactly the consumed messages to the decode
queue, in order. -/
theorem handoffsOf_consumeClaim (msgs : List Bytes) :
    handoffsOf (ConsumeClaim msgs) = msgs := by
  induction msgs with
  | nil => rfl
  | cons m rest ih =>
    simp only [ConsumeClaim, handoffsOf, List.filterMap_cons] at ih ⊢
    simp [ih]

/-- The session loop marks exactly the consumed messages, in order. -/
theorem marksOf_consumeClaim (msgs : List Bytes) :
    marksOf (ConsumeClaim msgs) = msgs := by
  induction msgs with
  | nil => rfl
  | cons m rest ih =>
    simp only [ConsumeClaim, marksOf, List.filterMap_cons] at ih ⊢
    simp [ih]

/-- In the session trace, the `i`-th message's hand-off sits at position
`2*i` and its mark at position `2*i + 1`: each mark directly follows its own
hand-off, before the next message is touched. -/
theorem consumeClaim_get? (msgs : List Bytes) (i : Nat) :
    (ConsumeClaim msgs).get? (2 * i) = (msgs.get? i).map SessionEvent.handoff ∧
    (ConsumeClaim msgs).get? (2 * i + 1) = (msgs.get? i).map SessionEvent.mark := by
  induction msgs generalizing i with
  | nil => simp [ConsumeClaim]
  | cons m rest ih =>
    cases i with
    | zero => simp [ConsumeClaim]
    | succ j =>
      have h2 : 2 * (j + 1) = 2 * j + 1 + 1 := by ring
      rw [h2]
      simpa [ConsumeClaim] using ih j

/-- A worker with a real decoder never crashes: it logs exactly the failed
decodes and forwards exactly the successful ones, in order. -/
theorem workerLoop_some {R : Type} (f : Bytes → Except Err R) (msgs : List Bytes) :
    workerLoop (some f) msgs
      = some (msgs.filterMap (decodeLogEntry f),
              msgs.filterMap fun b => (f b).toOption) := by
  induction msgs with
  | nil => rfl
  | cons b rest ih =>
    cases hb : f b <;>
      simp [workerLoop, hb, ih, decodeLogEntry, Except.toOption, List.filterMap_cons]

/-- A successfully created consumer group is connected to the configured
brokers under the string-literal group identity "tcpdog". -/
theorem newConsumerGroup_ok (kCfg : KafkaConfig) (cg : ConsumerGroup)
    (h : newConsumerGroup kCfg = .ok cg) :
    cg.group.brokers = kCfg.brokers ∧ cg.group.groupID = "tcpdog" ∧
    cg.serialization = "" := by
  unfold newConsumerGroup saramaConfig saramaNewConsumerGroup at h
  by_cases hb : kCfg.brokers.isEmpty
  · simp [hb] at h
  · simp only [hb, if_false] at h
    cases h
    exact ⟨rfl, rfl, rfl⟩

/-- C1 counterexample: "xml" is not a registered serialization name, yet
flow construction succeeds — `Start` returns no error — while the registry
yields no decoder for the name and the worker fails at the first message. -/
theorem start_accepts_unregistered_name :
    isOk (Start cfgKafkaTest "kafka" "xml") = true ∧
    getUnmarshal natCodecs "xml" = none ∧
    workerLoop (getUnmarshal natCodecs "xml") [[1]] = none :=
  ⟨rfl, rfl, rfl⟩

/-- C1 (amended): `Start` performs no validation of the serialization name:
for an unregistered name the registry yields no decoder, construction still
succeeds exactly when session creation succeeds, and the unknown name is
discovered lazily in the worker — it fails at the first arriving message and
not before. -/
theorem start_unknown_name_discovered_lazily {R : Type} (c : Codecs R)
    (cfg : ServerConfig) (name ser : String)
    (h1 : ser ≠ "json") (h2 : ser ≠ "spb") (h3 : ser ≠ "pb") :
    getUnmarshal c ser = none ∧
    isOk (Start cfg name ser)
      = isOk (newConsumerGroup (kafkaConfig (ingressLookup cfg name).config)) ∧
    (∀ b rest, workerLoop (getUnmarshal c ser) (b :: rest) = none) ∧
    workerLoop (getUnmarshal c ser) ([] : List Bytes) = some ([], []) := by
  have hu : getUnmarshal c ser = none := by simp [getUnmarshal, h1, h2, h3]
  refine ⟨hu, ?_, ?_, rfl⟩
  · cases hn : newConsumerGroup (kafkaConfig (ingressLookup cfg name).config) <;>
      simp [Start, hn, isOk]
  · intro b rest
    simp [workerLoop, hu]

/-- C1 witness for the amended claim at a concrete unregistered name. -/
theorem start_unknown_name_discovered_lazily_witness :
    isOk (Start cfgKafkaTest "kafka" "xml")
      = isOk (newConsumerGroup (kafkaConfig (ingressLookup cfgKafkaTest "kafka").config)) :=
  (start_unknown_name_discovered_lazily natCodecs cfgKafkaTest "kafka" "xml"
    (by decide) (by decide) (by decide)).2.1

/-- C2 counterexample: the endpoint settings configure group identity
"mygroup", yet the session opened by `Start` joins group "tcpdog". -/
theorem session_ignores_configured_group :
    (kafkaConfig (ingressLookup cfgKafkaTest "kafka").config).group = "mygroup" ∧
    Except.map (fun r : StartSpawn => r.cg.group.groupID)
        (Start cfgKafkaTest "kafka" "spb") = .ok "tcpdog" ∧
    ("tcpdog" : String) ≠ "mygroup" :=
  ⟨rfl, rfl, by decide⟩

/-- C2 (amended): `Start` resolves broker addresses, topic and worker count
from the named ingress EndpointSpec's settings and opens the consumer
session for those brokers and that topic under the fixed group identity
"tcpdog" — the configured group identity is not used. -/
theorem start_resolves_settings_fixed_group (cfg : ServerConfig) (name ser : String)
    (r : StartSpawn) (h : Start cfg name ser = .ok r) :
    r.cg.group.brokers = (kafkaConfig (ingressLookup cfg name).config).brokers ∧
    r.topic = (kafkaConfig (ingressLookup cfg name).config).topic ∧
    r.workers = (kafkaConfig (ingressLookup cfg name).config).workers ∧
    r.cg.serialization = ser ∧
    r.cg.group.groupID = "tcpdog" := by
  simp only [Start] at h
  cases hn : newConsumerGroup (kafkaConfig (ingressLookup cfg name).config) with
  | error e => rw [hn] at h; exact absurd h (by simp)
  | ok cg =>
    rw [hn] at h
    obtain ⟨hb, hg, hs⟩ := newConsumerGroup_ok _ cg hn
    cases h
    exact ⟨hb, rfl, rfl, rfl, hg⟩

/-- C2 witness for the amended claim at the concrete configuration. -/
theorem start_resolves_settings_fixed_group_witness :
    startSpawnW.cg.group.groupID = "tcpdog" :=
  (start_resolves_settings_fixed_group cfgKafkaTest "kafka" "spb" startSpawnW rfl).2.2.2.2

/-- C3: in every flow run, the session hands each consumed message to the
decode queue and marks it at the very next trace position — before anything
downstream of the hand-off — and every message is marked whatever the flow's
decoder does with it (at-most-once delivery: marks do not depend on decode
success). -/
theorem session_marks_immediately_after_handoff {R : Type} (c : Codecs R)
    (ser : String) (msgs : List Bytes) (t : FlowTrace R)
    (h : runFlow c ser msgs = some t) :
    marksOf t.session = msgs ∧
    handoffsOf t.session = msgs ∧
    ∀ i, t.session.get? (2 * i) = (msgs.get? i).map SessionEvent.handoff ∧
         t.session.get? (2 * i + 1) = (msgs.get? i).map SessionEvent.mark := by
  have hsession : t.session = ConsumeClaim msgs := by
    unfold runFlow at h
    cases hw : workerLoop (getUnmarshal c ser) (handoffsOf (ConsumeClaim msgs)) with
    | none => rw [hw] at h; exact absurd h (by simp)
    | some p => rw [hw] at h; cases h; rfl
  rw [hsession]
  exact ⟨marksOf_consumeClaim msgs, handoffsOf_consumeClaim msgs,
    fun i => consumeClaim_get? msgs i⟩

/-- C3 witness: with a decoder failing on every payload, both messages are
still marked. -/
theorem session_marks_immediately_after_handoff_witness :
    marksOf flowTraceW.session = [[0], [1]] :=
  (session_marks_immediately_after_handoff failCodecs "json" [[0], [1]] flowTraceW rfl).1

/-- C4: every return of a consumption call is treated as transient — the
loop body always falls through to the next iteration, a returned error is
logged — and after any number of iterations the supervising loop has invoked
consumption exactly once per iteration and is still running (it never
terminates on a returned value). -/
theorem supervisor_retries_every_return (consume : Nat → Option Err) (n : Nat) :
    (∀ outcome, (superviseBody outcome).2 = LoopControl.next) ∧
    (superviseRun consume n).calls = n ∧
    (superviseRun consume n).logs = (List.range n).filterMap consume := by
  have hbody : ∀ outcome, (superviseBody outcome).2 = LoopControl.next := by
    intro o; cases o <;> rfl
  refine ⟨hbody, ?_⟩
  induction n with
  | zero => exact ⟨rfl, rfl⟩
  | succ k ih =>
    obtain ⟨hc, hl⟩ := ih
    cases hco : consume k with
    | none =>
      constructor <;>
        simp [superviseRun, hc, hco, superviseBody, hl, List.range_succ,
          List.filterMap_append]
    | some e =>
      constructor <;>
        simp [superviseRun, hc, hco, superviseBody, hl, List.range_succ,
          List.filterMap_append]

/-- C5: a worker logs a failed decode and drops that single message — it is
decoded once, nothing is forwarded for it — and then continues: the
subsequent payloads are processed as if the bad one had not been there, so
every well-formed payload among them is still decoded and forwarded. -/
theorem worker_drops_failed_decode {R : Type} (u : Bytes → Except Err R)
    (b : Bytes) (e : Err) (rest : List Bytes) (h : u b = .error e) :
    workerLoop (some u) (b :: rest)
      = (workerLoop (some u) rest).map (fun p => ((b, e) :: p.1, p.2)) ∧
    workerLoop (some u) (b :: rest)
      = some ((b, e) :: rest.filterMap (decodeLogEntry u),
              rest.filterMap fun x => (u x).toOption) := by
  constructor
  · simp [workerLoop, h]
  · simp [workerLoop_some, h, List.filterMap_cons, decodeLogEntry, Except.toOption]

/-- C5 witness: the payload `[0]` fails to decode, is logged and dropped,
and the two subsequent well-formed payloads are still forwarded. -/
theorem worker_drops_failed_decode_witness :
    workerLoop (some decOnlyZeroBad) [[0], [1], [2]]
      = some ([([0], "bad payload")], [1, 1]) := by
  rw [(worker_drops_failed_decode decOnlyZeroBad [0] "bad payload" [[1], [2]] rfl).2]
  rfl

/-- C10: when consumer-group creation fails, `Start` returns that very error
and spawns no error-drain, supervising or worker task, and nothing is ever
forwarded to the output queue for that call; when it succeeds, `Start`
returns success (without blocking on consumption) having spawned the
error-drain task, the supervising task and the configured number of
workers. -/
theorem start_error_propagation {R : Type} (c : Codecs R) (cfg : ServerConfig)
    (name ser : String) :
    (∀ e, newConsumerGroup (kafkaConfig (ingressLookup cfg name).config) = .error e →
      Start cfg name ser = .error e ∧
      startTasks (Start cfg name ser) = [] ∧
      ∀ msgs, startForwarded c (Start cfg name ser) msgs = []) ∧
    (∀ g, newConsumerGroup (kafkaConfig (ingressLookup cfg name).config) = .ok g →
      ∃ r, Start cfg name ser = .ok r ∧
        startTasks (Start cfg name ser)
          = TaskKind.errorDrain :: TaskKind.supervisor ::
            List.replicate (kafkaConfig (ingressLookup cfg name).config).workers
              TaskKind.worker) := by
  constructor
  · intro e he
    have hs : Start cfg name ser = .error e := by simp [Start, he]
    exact ⟨hs, by simp [startTasks, hs],
      fun msgs => by simp [startForwarded, hs]⟩
  · intro g hg
    have hs : Start cfg name ser
        = .ok { cg := { g with serialization := ser },
                topic := (kafkaConfig (ingressLookup cfg name).config).topic,
                workers := (kafkaConfig (ingressLookup cfg name).config).workers,
                decodeQueueCap := 1 } := by
      simp [Start, hg]
    exact ⟨_, hs, by simp [startTasks, hs]⟩

/-- C10 witness: with no broker configured, session creation fails, `Start`
returns the error, spawns nothing, and nothing is forwarded; with brokers
configured, `Start` succeeds and spawns error drain, supervisor and two
workers. -/
theorem start_error_propagation_witness :
    startTasks (Start cfgNoBroker "kafka" "spb") = [] ∧
    startForwarded natCodecs (Start cfgNoBroker "kafka" "spb") [[1]] = [] ∧
    Start cfgNoBroker "kafka" "spb" = .error "you must provide at least one broker address" ∧
    startTasks (Start cfgKafkaTest "kafka" "spb")
      = [TaskKind.errorDrain, TaskKind.supervisor, TaskKind.worker, TaskKind.worker] := by
  have h := (start_error_propagation natCodecs cfgNoBroker "kafka" "spb").1
    "you must provide at least one broker address" rfl
  have h2 := (start_error_propagation natCodecs cfgKafkaTest "kafka" "spb").2
    ⟨⟨["127.0.0.1:9092"], "tcpdog"⟩, ""⟩ rfl
  obtain ⟨r, _, ht⟩ := h2
  exact ⟨h.2.1, h.2.2 [[1]], h.1, by rw [ht]; rfl⟩

end Tcpdog
